import Mathlib

/-
Verification development for the ginvoice repository.

Part A embeds the static source-pattern checker `verify_final_updates.py`
(the only executable logic present in the repository's source tree) together
with a model of the fragment of the Python `re` library that the script
exercises.

Part B models the offline-first synchronization core described by the
specification.  The application code implementing that core is not part of
this repository — the repository holds only the verification scripts that
drive it — so those definitions are reconstructed from the specification's
contracts and are marked as such in their doc comments.
-/

set_option autoImplicit false

namespace Ginvoice

/-! ## Part A: the static checker `verify_final_updates.py` -/

/-- Contiguous-sublist test on character lists, the basis for the model of
the Python substring operator. -/
def isSubListOf : List Char → List Char → Bool
  | needle, [] => needle.isEmpty
  | needle, c :: rest => needle.isPrefixOf (c :: rest) || isSubListOf needle rest

/-- Model of the Python expression `pat in content`: true iff `pat` occurs
contiguously inside `content`. -/
def containsSub (content pat : String) : Bool :=
  isSubListOf pat.toList content.toList

/-- The error raised by the Python `re` module when a pattern fails to
compile, e.g. because of an unterminated group. -/
inductive ReError
  | unterminatedGroup
  deriving DecidableEq

/-- Model of Python regex-group validity for the pattern dialect that
actually occurs in `verify_final_updates.py` (plain characters, grouping
parentheses, the dot and star metacharacters; no escapes, character classes
or alternation): `re.compile` succeeds iff every opening group parenthesis
is matched by a closing one and no closing parenthesis is unmatched. -/
def parensBalanced : List Char → Nat → Bool
  | [], 0 => true
  | [], _ + 1 => false
  | c :: rest, depth =>
    if c = '(' then parensBalanced rest (depth + 1)
    else if c = ')' then
      match depth with
      | 0 => false
      | d + 1 => parensBalanced rest d
    else parensBalanced rest depth

/-- Model of `re.search(pattern, content)` restricted to the patterns of
this script: a pattern with unbalanced group parentheses raises `re.error`;
for a balanced pattern, grouping parentheses are transparent to matching,
so the match test is modelled as a substring search on the pattern with the
group parentheses removed (a conservative model: no theorem below depends
on the boolean outcome for a valid pattern, only on whether the call
raises). -/
def reSearch (pattern content : String) : Except ReError Bool :=
  if parensBalanced pattern.toList 0 then
    Except.ok (containsSub content
      (String.mk (pattern.toList.filter (fun c => !(c == '(' || c == ')')))))
  else Except.error ReError.unterminatedGroup

/-- The printed output and the boolean result of one `check_file_content`
call. -/
structure CheckResult where
  output : List String
  ok : Bool
  deriving DecidableEq

/-- One iteration of the first loop of `check_file_content`: the Python
condition `pattern not in content and not re.search(pattern, content)`.
The `and` short-circuits, so the regex engine is consulted only when the
substring test fails — and an uncompilable pattern then raises. -/
def requiredMissing (content pattern : String) : Except ReError Bool :=
  if containsSub content pattern then Except.ok false
  else do
    let m ← reSearch pattern content
    pure (!m)

/-- One iteration of the second loop of `check_file_content`: the Python
condition `pattern in content or re.search(pattern, content)`, with `or`
short-circuiting past the regex engine when the substring test succeeds. -/
def forbiddenPresent (content pattern : String) : Except ReError Bool :=
  if containsSub content pattern then Except.ok true
  else reSearch pattern content

/-- The first loop of `check_file_content`: the FAILED lines for required
patterns, in order, paired with the conjunction of per-pattern successes. -/
def requiredLoop (filepath content : String) :
    List String → Except ReError (List String × Bool)
  | [] => Except.ok ([], true)
  | p :: ps => do
    let bad ← requiredMissing content p
    let (out, succ) ← requiredLoop filepath content ps
    if bad then
      Except.ok (("FAILED: " ++ filepath ++ " missing pattern: " ++ p) :: out, false)
    else
      Except.ok (out, succ)

/-- The second loop of `check_file_content`, over `missing_patterns`. -/
def forbiddenLoop (filepath content : String) :
    List String → Except ReError (List String × Bool)
  | [] => Except.ok ([], true)
  | p :: ps => do
    let bad ← forbiddenPresent content p
    let (out, succ) ← forbiddenLoop filepath content ps
    if bad then
      Except.ok (("FAILED: " ++ filepath ++ " should NOT have pattern: " ++ p) :: out, false)
    else
      Except.ok (out, succ)

/-- The file system the script reads: a map from path to file content,
`none` when the file does not exist. -/
abbrev FileSys := String → Option String

/-- Embedding of `check_file_content(filepath, patterns, missing_patterns)`
from `verify_final_updates.py`: a missing file prints a FAILED line and
returns `false` without touching any pattern; otherwise both pattern loops
run, a PASSED line is printed when every pattern check succeeded, and the
success boolean is returned.  An uncompilable pattern reached by a loop
raises `re.error`, which the function does not catch. -/
def check_file_content (fs : FileSys) (filepath : String)
    (patterns : List String) (missingPatterns : List String) :
    Except ReError CheckResult :=
  match fs filepath with
  | none => Except.ok ⟨["FAILED: " ++ filepath ++ " does not exist."], false⟩
  | some content => do
    let (out1, ok1) ← requiredLoop filepath content patterns
    let (out2, ok2) ← forbiddenLoop filepath content missingPatterns
    let success := ok1 && ok2
    Except.ok ⟨out1 ++ out2 ++ (if success then ["PASSED: " ++ filepath] else []), success⟩

/-- The required patterns the script checks in `client/App.tsx`. -/
def appPatterns : List String :=
  ["pushToBackend(\x7b", "refreshData();", "isOnline=\x7bisOnline\x7d"]

/-- The required patterns for `client/components/InventoryScreen.tsx`. -/
def inventoryPatterns : List String :=
  ["if (!isOnline)", "addToast(\x27Please connect to the internet",
   "\x7bitemToDelete && (", "confirmDeleteProduct"]

/-- The required patterns for `client/components/HistoryScreen.tsx`. -/
def historyPatterns : List String :=
  ["if (!isOnline)", "\x7btransactionToDelete && (", "confirmDelete"]

/-- The required patterns for `client/components/SettingsScreen.tsx`. -/
def settingsPatterns : List String :=
  ["if (!isOnline)", "alert(\x27You must be online", "isOnline: boolean"]

/-- The required patterns for `client/components/ExpenditureScreen.tsx`. -/
def expenditurePatterns : List String :=
  ["if (!isOnline)", "addToast(\x27Please connect to the internet"]

/-- The required patterns for `server/src/routes/analytics.js`. -/
def analyticsPatterns : List String :=
  ["selectedUnit.multiplier", "itemCost = baseCost * multiplier"]

/-- The required patterns for `server/src/routes/auth.js`. -/
def authPatterns : List String :=
  ["if (!business.emailVerified)", "requiresVerification: true"]

/-- The required patterns for `client/components/DashboardScreen.tsx`. -/
def dashboardPatterns : List String :=
  ["item.selectedUnit.multiplier",
   "cost = product.costPrice * item.selectedUnit.multiplier"]

/-- Transcript of the module top level of `verify_final_updates.py`: the
eight `check_file_content` calls run in order, each boolean result is
discarded exactly as the script discards it, and the printed lines are
collected. -/
def scriptTranscript (fs : FileSys) : Except ReError (List String) := do
  let r1 ← check_file_content fs "client/App.tsx" appPatterns []
  let r2 ← check_file_content fs "client/components/InventoryScreen.tsx" inventoryPatterns []
  let r3 ← check_file_content fs "client/components/HistoryScreen.tsx" historyPatterns []
  let r4 ← check_file_content fs "client/components/SettingsScreen.tsx" settingsPatterns []
  let r5 ← check_file_content fs "client/components/ExpenditureScreen.tsx" expenditurePatterns []
  let r6 ← check_file_content fs "server/src/routes/analytics.js" analyticsPatterns []
  let r7 ← check_file_content fs "server/src/routes/auth.js" authPatterns []
  let r8 ← check_file_content fs "client/components/DashboardScreen.tsx" dashboardPatterns []
  Except.ok (["Verifying Offline Mode & Updates..."] ++
    r1.output ++ r2.output ++ r3.output ++ r4.output ++
    r5.output ++ r6.output ++ r7.output ++ r8.output ++
    ["Verification Complete."])

/-- Embedding of running `verify_final_updates.py` as a process: the
transcript paired with the process exit status.  The script never calls
`sys.exit`, so a run that completes without an exception exits with
status 0; an uncaught `re.error` is the `Except.error` case. -/
def verify_final_updates (fs : FileSys) : Except ReError (List String × Nat) :=
  (scriptTranscript fs).map (fun out => (out, 0))

/-- A file system holding a `client/App.tsx` whose content contains none of
the required patterns as a substring. -/
def fsNoPush : FileSys := fun p =>
  if p = "client/App.tsx" then some "export default App;" else none

/-- A file system holding a `client/App.tsx` that contains all three
required patterns as literal substrings. -/
def fsWithPush : FileSys := fun p =>
  if p = "client/App.tsx" then
    some "pushToBackend(\x7b data \x7d); refreshData(); isOnline=\x7bisOnline\x7d"
  else none

/-- The file system in which none of the eight checked files exists. -/
def fsAbsent : FileSys := fun _ => none

/-- The transcript the script prints when none of the checked files
exists. -/
def outAbsent : List String :=
  ["Verifying Offline Mode & Updates...",
   "FAILED: client/App.tsx does not exist.",
   "FAILED: client/components/InventoryScreen.tsx does not exist.",
   "FAILED: client/components/HistoryScreen.tsx does not exist.",
   "FAILED: client/components/SettingsScreen.tsx does not exist.",
   "FAILED: client/components/ExpenditureScreen.tsx does not exist.",
   "FAILED: server/src/routes/analytics.js does not exist.",
   "FAILED: server/src/routes/auth.js does not exist.",
   "FAILED: client/components/DashboardScreen.tsx does not exist.",
   "Verification Complete."]

/-- Equality of `Except` values is decidable when both component types
have decidable equality; used to evaluate the checker on concrete file
systems. -/
instance {e a : Type} [DecidableEq e] [DecidableEq a] : DecidableEq (Except e a) := fun x y =>
  match x, y with
  | Except.ok v, Except.ok w =>
    if h : v = w then isTrue (by rw [h]) else isFalse (by intro hc; cases hc; exact h rfl)
  | Except.error v, Except.error w =>
    if h : v = w then isTrue (by rw [h]) else isFalse (by intro hc; cases hc; exact h rfl)
  | Except.ok _, Except.error _ => isFalse (by intro hc; cases hc)
  | Except.error _, Except.ok _ => isFalse (by intro hc; cases hc)

/-! ## Part B: the offline-first synchronization core

The application code implementing this core (React client and Node server)
is not part of this repository; only the verification scripts that assert
its behavior are.  The definitions below therefore follow the
specification's contracts for the Local Store, Working Copy Manager,
Connectivity Gate, Sync Coordinator and Unit-Cost Resolver. -/

/-- Modelled from the spec: an alternate measurement unit of a product,
carrying a multiplier relative to the base unit (the client/server code
declaring unit variants is not part of this repository). -/
structure UnitVariant where
  name : String
  multiplier : Nat
  deriving DecidableEq

/-- Modelled from the spec: a catalog product with identity, stock, prices,
base unit and alternate unit variants (the application's product model is
not part of this repository). -/
structure Product where
  id : String
  name : String
  category : String
  currentStock : Nat
  sellingPrice : Nat
  costPrice : Nat
  baseUnit : String
  units : List UnitVariant
  deriving DecidableEq

/-- Modelled from the spec: a transaction line referencing a product, the
unit variant selected at sale time (recorded on the line itself), and a
quantity. -/
structure TransactionLine where
  productId : String
  selectedUnit : UnitVariant
  quantity : Nat
  deriving DecidableEq

/-- Modelled from the spec: a recorded sale, a list of transaction lines
under one identity. -/
structure Transaction where
  id : String
  lines : List TransactionLine
  deriving DecidableEq

/-- Modelled from the spec: a recorded expenditure. -/
structure Expenditure where
  id : String
  description : String
  amount : Nat
  deriving DecidableEq

/-- Modelled from the spec: the mutable settings object of §3 — the
editable profile fields the verification scripts exercise (name, address,
phone, email, subscription flag), subject to dirty-diffing against the
last-committed value. -/
structure BusinessProfile where
  name : String
  address : String
  phone : String
  email : String
  isSubscribed : Bool
  deriving DecidableEq

/-- Modelled from the spec: the full local cache — products, transactions,
expenditures and the business profile — owned by the Local Store and
replaced atomically on refresh. -/
structure BusinessSnapshot where
  products : List Product
  transactions : List Transaction
  expenditures : List Expenditure
  business : BusinessProfile
  deriving DecidableEq

/-- Modelled from the spec: the Unit-Cost Resolver, the single shared
formula `amount = product.costPrice * transactionLine.selectedUnit.multiplier`
(the analytics route and dashboard component consuming it are not part of
this repository).  It reads the multiplier recorded on the line, never the
product's current variant table. -/
def resolveLineCost (p : Product) (t : TransactionLine) : Nat :=
  p.costPrice * t.selectedUnit.multiplier

/-- Modelled from the spec: a single field edit applied to a working copy
by the Working Copy Manager's `setField`. -/
inductive Edit
  | setName (s : String)
  | setAddress (s : String)
  | setPhone (s : String)
  | setEmail (s : String)
  | setSubscribed (b : Bool)
  deriving DecidableEq

/-- Modelled from the spec: `setField` — applying one edit to a working
copy yields a new immutable working-copy snapshot. -/
def applyEdit (c : BusinessProfile) : Edit → BusinessProfile
  | Edit.setName s => { c with name := s }
  | Edit.setAddress s => { c with address := s }
  | Edit.setPhone s => { c with phone := s }
  | Edit.setEmail s => { c with email := s }
  | Edit.setSubscribed b => { c with isSubscribed := b }

/-- A sequence of `setField` edits applied in order. -/
def applyEdits (c : BusinessProfile) (es : List Edit) : BusinessProfile :=
  es.foldl applyEdit c

/-- Modelled from the spec: `beginEdit` — opening an edit surface creates a
working copy equal to the committed baseline, with no field touched. -/
def beginEdit (baseline : BusinessProfile) : BusinessProfile :=
  baseline

/-- Modelled from the spec: `isDirty` is a pure structural comparison
between the working copy and the last-committed baseline, not a mutable
touched flag. -/
def isDirty (copy baseline : BusinessProfile) : Bool :=
  decide (copy ≠ baseline)

/-- Whether an edit writes a value different from the one the baseline
holds for the same field. -/
def editNewValueDiffers (b : BusinessProfile) : Edit → Bool
  | Edit.setName s => decide (s ≠ b.name)
  | Edit.setAddress s => decide (s ≠ b.address)
  | Edit.setPhone s => decide (s ≠ b.phone)
  | Edit.setEmail s => decide (s ≠ b.email)
  | Edit.setSubscribed v => decide (v ≠ b.isSubscribed)

/-- The editable fields of the business profile, for field-granular
diffing. -/
inductive ProfileField
  | name
  | address
  | phone
  | email
  | isSubscribed
  deriving DecidableEq

/-- A field's current value, tagged by its type. -/
inductive FieldValue
  | str (s : String)
  | flag (b : Bool)
  deriving DecidableEq

/-- Projects one field's value out of a profile. -/
def fieldValue (p : BusinessProfile) : ProfileField → FieldValue
  | ProfileField.name => FieldValue.str p.name
  | ProfileField.address => FieldValue.str p.address
  | ProfileField.phone => FieldValue.str p.phone
  | ProfileField.email => FieldValue.str p.email
  | ProfileField.isSubscribed => FieldValue.flag p.isSubscribed

/-- All editable profile fields, in declaration order. -/
def allFields : List ProfileField :=
  [ProfileField.name, ProfileField.address, ProfileField.phone,
   ProfileField.email, ProfileField.isSubscribed]

/-- Modelled from the spec: the delta a Working Copy produces relative to
its baseline — the changed fields with their new values, the payload of a
push. -/
def computeDelta (baseline copy : BusinessProfile) :
    List (ProfileField × FieldValue) :=
  (allFields.filter (fun f => decide (fieldValue copy f ≠ fieldValue baseline f))).map
    (fun f => (f, fieldValue copy f))

/-- A push failure distinguished by the spec's error kinds. -/
inductive PushError
  | networkFailure
  | conflictFailure
  deriving DecidableEq

/-- Result of the Sync Coordinator's `push`. -/
inductive PushResult
  | ok
  | err (e : PushError)
  deriving DecidableEq

/-- Result of the Sync Coordinator's `refresh`: the canonical snapshot, or
a network failure. -/
inductive RefreshResult
  | ok (snap : BusinessSnapshot)
  | networkFailure

/-- The remote backend as seen by one commit attempt: the acknowledgment
the push endpoint returns for a given delta, and the outcome of the
refresh pull issued during the same attempt. -/
structure SyncEnv where
  push : List (ProfileField × FieldValue) → PushResult
  refresh : RefreshResult

/-- State owned by the synchronization pipeline: the committed baseline,
the working copy, the Local Store snapshot, and the known-stale marker for
the snapshot. -/
structure SyncState where
  baseline : BusinessProfile
  working : BusinessProfile
  store : BusinessSnapshot
  stale : Bool

/-- Observable events of one commit attempt, in the order the coordinator
issues them. -/
inductive SyncEvent
  | pushCalled (delta : List (ProfileField × FieldValue))
  | refreshCalled
  deriving DecidableEq

/-- Outcome of one commit attempt. -/
inductive CommitOutcome
  | committed
  | pushFailed (e : PushError)
  | refreshFailed
  deriving DecidableEq

/-- True exactly on push events. -/
def isPushEvent : SyncEvent → Bool
  | SyncEvent.pushCalled _ => true
  | SyncEvent.refreshCalled => false

/-- Modelled from the spec: `commitAndSync`, the push-before-refresh
protocol of §4.4.  The coordinator first sends the outbound delta; only on
a successful acknowledgment does it issue a refresh pull.  A failed push
leaves the whole state untouched.  A successful push whose refresh fails is
durable: the baseline advances to the just-pushed working copy and the
snapshot is marked stale, but the store keeps its previous value.  A fully
successful commit replaces the store with the server's canonical snapshot,
resets the baseline to the just-committed value and clears the stale
marker.  The returned event list records the calls the coordinator made, in
order. -/
def commitAndSync (env : SyncEnv) (st : SyncState) :
    SyncState × List SyncEvent × CommitOutcome :=
  let delta := computeDelta st.baseline st.working
  match env.push delta with
  | PushResult.err e =>
    (st, [SyncEvent.pushCalled delta], CommitOutcome.pushFailed e)
  | PushResult.ok =>
    match env.refresh with
    | RefreshResult.networkFailure =>
      ({ st with baseline := st.working, stale := true },
       [SyncEvent.pushCalled delta, SyncEvent.refreshCalled],
       CommitOutcome.refreshFailed)
    | RefreshResult.ok snap =>
      ({ baseline := st.working, working := st.working, store := snap, stale := false },
       [SyncEvent.pushCalled delta, SyncEvent.refreshCalled],
       CommitOutcome.committed)

/-- Modelled from the spec: the recovery pull — a refresh that is skipped
when the local snapshot is not known stale, and otherwise replaces the
store and clears the stale marker on success. -/
def refreshIfNeeded (env : SyncEnv) (st : SyncState) : SyncState :=
  if st.stale then
    match env.refresh with
    | RefreshResult.ok snap => { st with store := snap, stale := false }
    | RefreshResult.networkFailure => st
  else st

/-- Application state seen by the mutating entry points: the Local Store
snapshot, the working copy and its baseline, the connectivity flag and the
emitted user notices. -/
structure AppState where
  store : BusinessSnapshot
  working : BusinessProfile
  baseline : BusinessProfile
  online : Bool
  notices : List String

/-- Modelled from the spec: the mutating entry points gated by
connectivity — create/delete transaction, delete product, change settings,
record expenditure. -/
inductive MutOp
  | createTransaction (t : Transaction)
  | deleteTransaction (id : String)
  | deleteProduct (id : String)
  | changeSettings (e : Edit)
  | recordExpenditure (e : Expenditure)

/-- The user-visible notice the Connectivity Gate emits when it vetoes a
mutation. -/
def offlineNotice : String :=
  "Please connect to the internet to perform this action."

/-- The online behavior of each mutating operation, applied only after the
Connectivity Gate admits it. -/
def applyMutation (st : AppState) : MutOp → AppState
  | MutOp.createTransaction t =>
    { st with store := { st.store with transactions := st.store.transactions ++ [t] } }
  | MutOp.deleteTransaction i =>
    { st with store :=
        { st.store with transactions := st.store.transactions.filter (fun t => t.id != i) } }
  | MutOp.deleteProduct i =>
    { st with store :=
        { st.store with products := st.store.products.filter (fun p => p.id != i) } }
  | MutOp.changeSettings e =>
    { st with working := applyEdit st.working e }
  | MutOp.recordExpenditure e =>
    { st with store := { st.store with expenditures := st.store.expenditures ++ [e] } }

/-- Result returned by a gated mutating entry point. -/
inductive OpResult
  | blocked
  | applied
  deriving DecidableEq

/-- Modelled from the spec: the Connectivity Gate of §4.2 — every mutating
entry point consults `isOnline` first; while offline the operation is a
no-op that records the user notice and returns `Blocked`, leaving the
Local Store and the Working Copy untouched. -/
def mutate (st : AppState) (op : MutOp) : AppState × OpResult :=
  if st.online then (applyMutation st op, OpResult.applied)
  else ({ st with notices := st.notices ++ [offlineNotice] }, OpResult.blocked)

/-- Modelled from the spec: a backend account as the auth route sees it —
credentials plus the email-verification flag (the route itself,
`server/src/routes/auth.js`, is not part of this repository). -/
structure Account where
  email : String
  pin : String
  emailVerified : Bool
  deriving DecidableEq

/-- The authentication response: whether login succeeded, and the explicit
verification-required signal. -/
structure AuthResponse where
  success : Bool
  requiresVerification : Bool
  deriving DecidableEq

/-- Modelled from the spec: the login endpoint — an unverified account is
rejected with `requiresVerification: true` before credentials are even
considered; a verified account succeeds exactly on a matching PIN. -/
def login (acc : Account) (pinAttempt : String) : AuthResponse :=
  if acc.emailVerified = false then ⟨false, true⟩
  else if pinAttempt = acc.pin then ⟨true, false⟩
  else ⟨false, false⟩

/-- The profile used by the browser verification scripts as the committed
baseline. -/
def sampleProfile : BusinessProfile :=
  ⟨"Test Business", "123 Test St", "+2348000000000", "test@business.com", false⟩

/-- An empty snapshot around the sample profile. -/
def sampleSnapshot : BusinessSnapshot :=
  ⟨[], [], [], sampleProfile⟩

/-- A product with a base cost of 900 and one alternate unit variant of
multiplier 2. -/
def sampleProduct : Product :=
  ⟨"p1", "Rice", "Grains", 10, 1200, 900, "Bag", [⟨"Carton", 2⟩]⟩

/-- A historical sale line recorded against the Carton variant, multiplier
2 recorded on the line. -/
def sampleLine : TransactionLine :=
  ⟨"p1", ⟨"Carton", 2⟩, 1⟩

/-- A sync state whose working copy renamed the business, making it
dirty. -/
def dirtyState : SyncState :=
  ⟨sampleProfile, { sampleProfile with name := "Test Business Updated" }, sampleSnapshot, false⟩

/-- A backend whose push endpoint times out. -/
def envPushFails : SyncEnv :=
  ⟨fun _ => PushResult.err PushError.networkFailure, RefreshResult.networkFailure⟩

/-- A backend that acknowledges the push but whose refresh pull times
out. -/
def envRefreshFails : SyncEnv :=
  ⟨fun _ => PushResult.ok, RefreshResult.networkFailure⟩

/-- A canonical snapshot distinct from the sample one, for observing that a
later refresh really replaces the store. -/
def canonicalSnapshot : BusinessSnapshot :=
  ⟨[sampleProduct], [], [], { sampleProfile with name := "Test Business Updated" }⟩

/-- A healthy backend returning the canonical snapshot on refresh. -/
def envHealthy : SyncEnv :=
  ⟨fun _ => PushResult.ok, RefreshResult.ok canonicalSnapshot⟩

/-- An offline application state with the sample snapshot and a clean
working copy. -/
def offlineApp : AppState :=
  ⟨sampleSnapshot, sampleProfile, sampleProfile, false, []⟩

/-- An account that has not verified its email. -/
def unverifiedAccount : Account :=
  ⟨"test@business.com", "1234", false⟩

/-! ## Theorems -/

/-- Auxiliary: a business profile is determined by its five fields. -/
theorem profile_eq_of_fields (p q : BusinessProfile)
    (h1 : p.name = q.name) (h2 : p.address = q.address) (h3 : p.phone = q.phone)
    (h4 : p.email = q.email) (h5 : p.isSubscribed = q.isSubscribed) : p = q := by
  cases p; cases q; simp_all

/-- Auxiliary: a profile is never dirty against itself. -/
theorem isDirty_self (b : BusinessProfile) : isDirty b b = false := by
  simp [isDirty]

/-- Auxiliary: the delta of a profile against itself is empty. -/
theorem computeDelta_self (b : BusinessProfile) : computeDelta b b = [] := by
  simp [computeDelta]

/-- C1: for every commit, the Sync Coordinator invokes push strictly before
refresh — the event trace of `commitAndSync` begins with the push of the
pending delta and contains the refresh call exactly when the push was
acknowledged with `ok`, so if push fails, refresh is never invoked for that
commit attempt. -/
theorem push_before_refresh (env : SyncEnv) (st : SyncState) :
    (commitAndSync env st).2.1 =
      SyncEvent.pushCalled (computeDelta st.baseline st.working) ::
        (if env.push (computeDelta st.baseline st.working) = PushResult.ok
         then [SyncEvent.refreshCalled] else []) := by
  unfold commitAndSync
  cases hp : env.push (computeDelta st.baseline st.working) with
  | ok => cases env.refresh <;> simp [hp]
  | err e => simp [hp]

/-- C2: every mutating operation attempted while `isOnline` is false is a
no-op returning `Blocked`: the Local Store snapshot, the Working Copy and
its baseline are unchanged after the call, and the user-visible offline
notice is emitted. -/
theorem offline_mutation_blocked (st : AppState) (op : MutOp)
    (h : st.online = false) :
    (mutate st op).2 = OpResult.blocked ∧
    (mutate st op).1.store = st.store ∧
    (mutate st op).1.working = st.working ∧
    (mutate st op).1.baseline = st.baseline ∧
    (mutate st op).1.notices = st.notices ++ [offlineNotice] := by
  simp [mutate, h]

theorem offline_mutation_blocked_witness :
    offlineApp.online = false ∧
    ((mutate offlineApp (MutOp.deleteTransaction "t1")).2 = OpResult.blocked ∧
     (mutate offlineApp (MutOp.deleteTransaction "t1")).1.store = offlineApp.store ∧
     (mutate offlineApp (MutOp.deleteTransaction "t1")).1.working = offlineApp.working ∧
     (mutate offlineApp (MutOp.deleteTransaction "t1")).1.baseline = offlineApp.baseline ∧
     (mutate offlineApp (MutOp.deleteTransaction "t1")).1.notices =
       offlineApp.notices ++ [offlineNotice]) :=
  ⟨rfl, offline_mutation_blocked offlineApp (MutOp.deleteTransaction "t1") rfl⟩

/-- C3: for every product and transaction line referencing it,
`resolveLineCost` equals the product's cost price times the multiplier
recorded on the line's selected unit, and the result is unchanged under any
replacement of the product's current unit-variant list — a historical line
whose unit was later removed still resolves with the multiplier recorded at
sale time. -/
theorem resolveLineCost_formula (p : Product) (t : TransactionLine)
    (units2 : List UnitVariant) (_h : t.productId = p.id) :
    resolveLineCost p t = p.costPrice * t.selectedUnit.multiplier ∧
    resolveLineCost { p with units := units2 } t = resolveLineCost p t :=
  ⟨rfl, rfl⟩

theorem resolveLineCost_formula_witness :
    sampleLine.productId = sampleProduct.id ∧
    (resolveLineCost sampleProduct sampleLine =
        sampleProduct.costPrice * sampleLine.selectedUnit.multiplier ∧
     resolveLineCost { sampleProduct with units := [] } sampleLine =
        resolveLineCost sampleProduct sampleLine) ∧
    resolveLineCost { sampleProduct with units := [] } sampleLine = 1800 :=
  ⟨rfl, resolveLineCost_formula sampleProduct sampleLine [] rfl, rfl⟩

/-- C4: for every sequence of `setField` edits on a working copy that ends
with every field equal to its value in the last-committed baseline,
`isDirty` returns false — dirtiness is a pure structural equality, so
reverting a field to its original value makes the copy clean again. -/
theorem isDirty_false_after_revert (baseline : BusinessProfile) (edits : List Edit)
    (h1 : (applyEdits (beginEdit baseline) edits).name = baseline.name)
    (h2 : (applyEdits (beginEdit baseline) edits).address = baseline.address)
    (h3 : (applyEdits (beginEdit baseline) edits).phone = baseline.phone)
    (h4 : (applyEdits (beginEdit baseline) edits).email = baseline.email)
    (h5 : (applyEdits (beginEdit baseline) edits).isSubscribed = baseline.isSubscribed) :
    isDirty (applyEdits (beginEdit baseline) edits) baseline = false := by
  have h := profile_eq_of_fields _ _ h1 h2 h3 h4 h5
  simp [isDirty, h]

theorem isDirty_false_after_revert_witness :
    ((applyEdits (beginEdit sampleProfile)
        [Edit.setName "X", Edit.setName "Test Business"]).name = sampleProfile.name ∧
     (applyEdits (beginEdit sampleProfile)
        [Edit.setName "X", Edit.setName "Test Business"]).address = sampleProfile.address ∧
     (applyEdits (beginEdit sampleProfile)
        [Edit.setName "X", Edit.setName "Test Business"]).phone = sampleProfile.phone ∧
     (applyEdits (beginEdit sampleProfile)
        [Edit.setName "X", Edit.setName "Test Business"]).email = sampleProfile.email ∧
     (applyEdits (beginEdit sampleProfile)
        [Edit.setName "X", Edit.setName "Test Business"]).isSubscribed =
       sampleProfile.isSubscribed) ∧
    isDirty (applyEdits (beginEdit sampleProfile)
      [Edit.setName "X", Edit.setName "Test Business"]) sampleProfile = false ∧
    isDirty (applyEdits (beginEdit sampleProfile) [Edit.setName "X"]) sampleProfile = true :=
  ⟨⟨by decide, by decide, by decide, by decide, by decide⟩,
   isDirty_false_after_revert sampleProfile [Edit.setName "X", Edit.setName "Test Business"]
     (by decide) (by decide) (by decide) (by decide) (by decide),
   by decide⟩

/-- C5: the dirty flag is the sole signal for the commit affordance — on a
freshly opened edit surface `isDirty` is false, and it becomes true on the
first `setField` edit whose new value differs from the baseline. -/
theorem dirty_flag_drives_save_control (b : BusinessProfile) (e : Edit)
    (h : editNewValueDiffers b e = true) :
    isDirty (beginEdit b) b = false ∧
    isDirty (applyEdit (beginEdit b) e) b = true := by
  refine ⟨isDirty_self b, ?_⟩
  cases e with
  | setName s =>
    simp only [editNewValueDiffers, decide_eq_true_eq] at h
    simp only [isDirty, applyEdit, beginEdit, decide_eq_true_eq]
    intro hc
    exact h (congrArg BusinessProfile.name hc)
  | setAddress s =>
    simp only [editNewValueDiffers, decide_eq_true_eq] at h
    simp only [isDirty, applyEdit, beginEdit, decide_eq_true_eq]
    intro hc
    exact h (congrArg BusinessProfile.address hc)
  | setPhone s =>
    simp only [editNewValueDiffers, decide_eq_true_eq] at h
    simp only [isDirty, applyEdit, beginEdit, decide_eq_true_eq]
    intro hc
    exact h (congrArg BusinessProfile.phone hc)
  | setEmail s =>
    simp only [editNewValueDiffers, decide_eq_true_eq] at h
    simp only [isDirty, applyEdit, beginEdit, decide_eq_true_eq]
    intro hc
    exact h (congrArg BusinessProfile.email hc)
  | setSubscribed v =>
    simp only [editNewValueDiffers, decide_eq_true_eq] at h
    simp only [isDirty, applyEdit, beginEdit, decide_eq_true_eq]
    intro hc
    exact h (congrArg BusinessProfile.isSubscribed hc)

theorem dirty_flag_drives_save_control_witness :
    editNewValueDiffers sampleProfile (Edit.setName "Test Business Updated") = true ∧
    (isDirty (beginEdit sampleProfile) sampleProfile = false ∧
     isDirty (applyEdit (beginEdit sampleProfile) (Edit.setName "Test Business Updated"))
       sampleProfile = true) :=
  ⟨by decide,
   dirty_flag_drives_save_control sampleProfile (Edit.setName "Test Business Updated")
     (by decide)⟩

/-- C6: a commit attempt whose push fails — with any push error, network
failure or conflict alike — leaves the entire sync state untouched: the
working copy stays dirty exactly as before with its pending delta intact,
no refresh event occurs, and a retry re-sends exactly the same delta. -/
theorem failed_push_preserves_pending_delta (env : SyncEnv) (st : SyncState)
    (e : PushError)
    (h : env.push (computeDelta st.baseline st.working) = PushResult.err e) :
    (commitAndSync env st).1 = st ∧
    (commitAndSync env st).2.1 =
      [SyncEvent.pushCalled (computeDelta st.baseline st.working)] ∧
    (commitAndSync env st).2.2 = CommitOutcome.pushFailed e ∧
    isDirty (commitAndSync env st).1.working (commitAndSync env st).1.baseline =
      isDirty st.working st.baseline ∧
    computeDelta (commitAndSync env st).1.baseline (commitAndSync env st).1.working =
      computeDelta st.baseline st.working ∧
    (commitAndSync env (commitAndSync env st).1).2.1 =
      [SyncEvent.pushCalled (computeDelta st.baseline st.working)] := by
  simp [commitAndSync, h]

theorem failed_push_preserves_pending_delta_witness :
    envPushFails.push (computeDelta dirtyState.baseline dirtyState.working) =
      PushResult.err PushError.networkFailure ∧
    ((commitAndSync envPushFails dirtyState).1 = dirtyState ∧
     (commitAndSync envPushFails dirtyState).2.1 =
       [SyncEvent.pushCalled (computeDelta dirtyState.baseline dirtyState.working)] ∧
     (commitAndSync envPushFails dirtyState).2.2 =
       CommitOutcome.pushFailed PushError.networkFailure ∧
     isDirty (commitAndSync envPushFails dirtyState).1.working
         (commitAndSync envPushFails dirtyState).1.baseline =
       isDirty dirtyState.working dirtyState.baseline ∧
     computeDelta (commitAndSync envPushFails dirtyState).1.baseline
         (commitAndSync envPushFails dirtyState).1.working =
       computeDelta dirtyState.baseline dirtyState.working ∧
     (commitAndSync envPushFails (commitAndSync envPushFails dirtyState).1).2.1 =
       [SyncEvent.pushCalled (computeDelta dirtyState.baseline dirtyState.working)]) :=
  ⟨rfl, failed_push_preserves_pending_delta envPushFails dirtyState
     PushError.networkFailure rfl⟩

/-- C7: when push succeeds but the subsequent refresh fails, the push is
durable — the coordinator marks the local snapshot stale without touching
the stored snapshot, nothing of the delta remains pending for a re-push,
push was called exactly once during the attempt, and the next successful
refresh is not skipped: it replaces the store and clears the stale mark. -/
theorem durable_push_on_failed_refresh (env env2 : SyncEnv) (st : SyncState)
    (snap : BusinessSnapshot)
    (h1 : env.push (computeDelta st.baseline st.working) = PushResult.ok)
    (h2 : env.refresh = RefreshResult.networkFailure)
    (h3 : env2.refresh = RefreshResult.ok snap) :
    (commitAndSync env st).1.stale = true ∧
    (commitAndSync env st).1.store = st.store ∧
    computeDelta (commitAndSync env st).1.baseline (commitAndSync env st).1.working = [] ∧
    ((commitAndSync env st).2.1.filter isPushEvent).length = 1 ∧
    (commitAndSync env st).2.2 = CommitOutcome.refreshFailed ∧
    (refreshIfNeeded env2 (commitAndSync env st).1).store = snap ∧
    (refreshIfNeeded env2 (commitAndSync env st).1).stale = false := by
  simp [commitAndSync, h1, h2, refreshIfNeeded, h3, computeDelta_self, isPushEvent]

theorem durable_push_on_failed_refresh_witness :
    (envRefreshFails.push (computeDelta dirtyState.baseline dirtyState.working) =
       PushResult.ok ∧
     envRefreshFails.refresh = RefreshResult.networkFailure ∧
     envHealthy.refresh = RefreshResult.ok canonicalSnapshot) ∧
    ((commitAndSync envRefreshFails dirtyState).1.stale = true ∧
     (commitAndSync envRefreshFails dirtyState).1.store = dirtyState.store ∧
     computeDelta (commitAndSync envRefreshFails dirtyState).1.baseline
       (commitAndSync envRefreshFails dirtyState).1.working = [] ∧
     ((commitAndSync envRefreshFails dirtyState).2.1.filter isPushEvent).length = 1 ∧
     (commitAndSync envRefreshFails dirtyState).2.2 = CommitOutcome.refreshFailed ∧
     (refreshIfNeeded envHealthy (commitAndSync envRefreshFails dirtyState).1).store =
       canonicalSnapshot ∧
     (refreshIfNeeded envHealthy (commitAndSync envRefreshFails dirtyState).1).stale =
       false) :=
  ⟨⟨rfl, rfl, rfl⟩,
   durable_push_on_failed_refresh envRefreshFails envHealthy dirtyState canonicalSnapshot
     rfl rfl rfl⟩

/-- C8: for every account whose email is unverified, authentication rejects
the login and the response carries `requiresVerification: true`; once the
email is verified the same credentials log in successfully. -/
theorem unverified_login_rejected (acc : Account) (pinAttempt : String)
    (h : acc.emailVerified = false) :
    (login acc pinAttempt).success = false ∧
    (login acc pinAttempt).requiresVerification = true ∧
    (login { acc with emailVerified := true } acc.pin).success = true := by
  simp [login, h]

theorem unverified_login_rejected_witness :
    unverifiedAccount.emailVerified = false ∧
    ((login unverifiedAccount "1234").success = false ∧
     (login unverifiedAccount "1234").requiresVerification = true ∧
     (login { unverifiedAccount with emailVerified := true } unverifiedAccount.pin).success =
       true) :=
  ⟨rfl, unverified_login_rejected unverifiedAccount "1234" rfl⟩

/-- C9: `check_file_content` is not total — with an existing
`client/App.tsx` whose content lacks the first required pattern as a
literal substring, the short-circuit fails, `re.search` is reached, and the
pattern (which contains an unterminated group) raises an unhandled
`re.error` instead of printing FAILED and returning false; when the
substring is present the regex branch is skipped and the call returns
normally. -/
theorem check_file_content_raises_on_invalid_pattern :
    containsSub "export default App;" "pushToBackend(\x7b" = false ∧
    parensBalanced ("pushToBackend(\x7b").toList 0 = false ∧
    check_file_content fsNoPush "client/App.tsx" appPatterns [] =
      Except.error ReError.unterminatedGroup ∧
    check_file_content fsWithPush "client/App.tsx" appPatterns [] =
      Except.ok ⟨["PASSED: client/App.tsx"], true⟩ :=
  ⟨by decide, by decide, by decide, by decide⟩

/-- C10: `verify_final_updates.py` terminates with exit status 0 for every
state of the checked files in which no pattern raises an exception — the
boolean results of `check_file_content` are discarded at every call site
and no failure path calls into process exit, so a FAILED check never
changes the exit code. -/
theorem verify_final_updates_exit_zero (fs : FileSys) (out : List String) (code : Nat)
    (h : verify_final_updates fs = Except.ok (out, code)) : code = 0 := by
  unfold verify_final_updates at h
  cases ht : scriptTranscript fs with
  | error e => rw [ht] at h; simp [Except.map] at h
  | ok o =>
    rw [ht] at h
    simp [Except.map] at h
    exact h.2.symm

theorem verify_final_updates_exit_zero_witness :
    verify_final_updates fsAbsent = Except.ok (outAbsent, 0) ∧ (0 : Nat) = 0 :=
  ⟨by decide, verify_final_updates_exit_zero fsAbsent outAbsent 0 (by decide)⟩

end Ginvoice
